import Mathlib

/-!
Verification of the go-ansiterm ANSI parser and Windows console adapter.

The Go sources are shallowly embedded as executable Lean functions:
pure helpers become Lean functions on `List Nat` (byte sequences) and
`Int` (Go `SHORT`/`int` values, which stay far from overflow in all the
properties considered here); the stateful Windows adapter becomes
explicit state passing over a `Handler` record, with every Win32 call
recorded in an emitted `BackendCall` trace.
-/

namespace GoAnsiterm

/-! ## CSI parameter parsing (parse_helpers) -/

/-- ASCII decimal digit test, as used by Go's `strconv.Atoi` on parameter
tokens. -/
def isDigitByte (c : Nat) : Bool := 48 ≤ c && c ≤ 57

/-- Value of a digit string (no sign), most significant digit first. -/
def digitsVal (s : List Nat) : Nat := s.foldl (fun a c => a * 10 + (c - 48)) 0

/-- Go's `strconv.Atoi` with the error ignored, as the source does
(`i, _ := strconv.Atoi(v)`): a syntactically invalid token yields 0.
An optional leading sign is accepted; the 64-bit range is not modelled
(parameter tokens are a handful of digits). -/
def atoi (s : List Nat) : Int :=
  match s with
  | 45 :: rest => if rest ≠ [] ∧ rest.all isDigitByte then -(digitsVal rest : Int) else 0
  | 43 :: rest => if rest ≠ [] ∧ rest.all isDigitByte then (digitsVal rest : Int) else 0
  | _ => if s ≠ [] ∧ s.all isDigitByte then (digitsVal s : Int) else 0

/-- Loop of `parseParams`: accumulates bytes into `buff`, emitting a
completed parameter at each `';'` (byte 59) only when `buff` is
non-empty, and emitting the final `buff` when non-empty. -/
def parseParamsAux (buff : List Nat) : List Nat → List (List Nat)
  | [] => if buff.isEmpty then [] else [buff]
  | v :: rest =>
    if v = 59 then
      if buff.isEmpty then parseParamsAux [] rest
      else buff :: parseParamsAux [] rest
    else parseParamsAux (buff ++ [v]) rest

/-- `parseParams` from the source: split the CSI parameter buffer on `';'`,
dropping empty fragments. -/
def parseParams (bytes : List Nat) : List (List Nat) := parseParamsAux [] bytes

/-- `getInts` from the source: decode every token with `strconv.Atoi`
(errors ignored), then pad at the end with the default value until the
minimum count is reached. -/
def getInts (params : List (List Nat)) (minCount : Nat) (dflt : Int) : List Int :=
  let ints := params.map atoi
  if ints.length < minCount then ints ++ List.replicate (minCount - ints.length) dflt
  else ints

/-- `getInt` from the source: `getInts(params, 1, dflt)[0]`. The list
returned by `getInts` with minimum count 1 is never empty, so `headD`
is exact. -/
def getInt (params : List (List Nat)) (dflt : Int) : Int :=
  (getInts params 1 dflt).headD dflt

/-- `getEraseParam` from the source: decode the first parameter with
default 0 and replace any value outside `[0, 3]` by 0. -/
def getEraseParam (params : List (List Nat)) : Int :=
  let param := getInt params 0
  if param < 0 ∨ 3 < param then 0 else param

/-- Plain split on `';'` that keeps empty fragments; used to state what
the specification claims about parameter decoding, and to describe the
code's actual behaviour (split, then drop the empties). -/
def splitKeepEmptyAux (buff : List Nat) : List Nat → List (List Nat)
  | [] => [buff]
  | v :: rest =>
    if v = 59 then buff :: splitKeepEmptyAux [] rest
    else splitKeepEmptyAux (buff ++ [v]) rest

/-- Split the parameter buffer on `';'`, keeping empty tokens. -/
def splitKeepEmpty (bytes : List Nat) : List (List Nat) := splitKeepEmptyAux [] bytes

/-- Definition following the claim's words (for comparison with the
source): each token between `';'` separators is decoded base-10, an
empty token decoding to the default value in its position, and the
result is padded to the per-command minimum count with the default. -/
def claimedParamInts (bytes : List Nat) (minCount : Nat) (dflt : Int) : List Int :=
  let ints := (splitKeepEmpty bytes).map (fun t => if t.isEmpty then dflt else atoi t)
  if ints.length < minCount then ints ++ List.replicate (minCount - ints.length) dflt
  else ints

/-! ## Windows console adapter data model (win_event_handler) -/

/-- Console coordinate pair (Win32 `COORD`, two `SHORT`s). -/
structure COORD where
  x : Int
  y : Int
deriving Repr, DecidableEq

/-- Win32 `SMALL_RECT`. -/
structure SMALL_RECT where
  left : Int
  top : Int
  right : Int
  bottom : Int
deriving Repr, DecidableEq

/-- The parts of Win32 `CONSOLE_SCREEN_BUFFER_INFO` the adapter reads:
buffer size, cursor position, current attributes and window rectangle. -/
structure CONSOLE_INFO where
  sizeX : Int
  sizeY : Int
  cursor : COORD
  attributes : Nat
  window : SMALL_RECT
deriving Repr, DecidableEq

/-- `scrollRegion` from the source: a pair of 0-indexed rows. -/
structure ScrollRegionRec where
  top : Int
  bottom : Int
deriving Repr, DecidableEq

/-- State of `WindowsAnsiEventHandler`. The `fd`/`file`/logger fields are
the opaque backend; the remaining fields are carried here. `infoReset` is
reduced to the only field the adapter reads from it, its attribute word. -/
structure Handler where
  infoResetAttributes : Nat
  sr : ScrollRegionRec
  buffer : List Nat
  wrapNext : Bool
  drewMarginByte : Bool
  inverted : Bool
  attributes : Nat
  marginByte : Nat
  curInfo : Option CONSOLE_INFO
  curPos : COORD
deriving Repr, DecidableEq

/-- One observable call into the Win32 / file backend. -/
inductive BackendCall where
  | getInfo
  | fileWrite (bytes : List Nat)
  | writeConsoleOutput (ch : Nat) (attr : Nat) (region : SMALL_RECT)
  | scrollBuffer (src : SMALL_RECT) (clip : SMALL_RECT) (dest : COORD)
      (fillChar : Nat) (fillAttr : Nat)
  | setCursorPos (p : COORD)
  | setTextAttribute (a : Nat)
deriving Repr, DecidableEq

/-- Backend environment: the response handed out by
`GetConsoleScreenBufferInfo`, and the behaviour of the underlying file
write (`none`: every write succeeds; `some k`: a write accepts `k` bytes
and then fails, as a short write through `bytes.Buffer.WriteTo`). -/
structure Env where
  info : CONSOLE_INFO
  writeLimit : Option Nat
deriving Repr, DecidableEq

/-- Result of one adapter operation: Go's `error` return becomes the `ok`
flag (callers short-circuit on `ok = false`), next to the returned value,
the updated handler state and the emitted backend calls. -/
structure Res (α : Type) where
  ok : Bool
  val : α
  h : Handler
  calls : List BackendCall
deriving Repr

/-- `clearWrap` from the source: zero `wrapNext` and `drewMarginByte`. -/
def clearWrap (h : Handler) : Handler :=
  { h with wrapNext := false, drewMarginByte := false }

/-- `updatePos` from the source: overwrite the cached cursor position
(the Go code asserts the cache is valid; every call site below
establishes it). -/
def updatePos (h : Handler) (pos : COORD) : Handler := { h with curPos := pos }

/-- `getCurrentInfo` from the source: return the cached snapshot, or
query `GetConsoleScreenBufferInfo` and establish the cache. -/
def getCurrentInfo (env : Env) (h : Handler) :
    COORD × CONSOLE_INFO × Handler × List BackendCall :=
  match h.curInfo with
  | some info => (h.curPos, info, h, [])
  | none =>
    let info := env.info
    (info.cursor, info,
     { h with curInfo := some info, curPos := info.cursor }, [BackendCall.getInfo])

/-- Outcome of one write to the underlying file: success flag and number
of bytes consumed (Go's `bytes.Buffer.WriteTo` drops from the buffer
exactly the bytes that were written). -/
def writeFile (env : Env) (bytes : List Nat) : Bool × Nat :=
  match env.writeLimit with
  | none => (true, bytes.length)
  | some k => if bytes.length ≤ k then (true, bytes.length) else (false, k)

/-- Margin-byte half of `Flush` from the source: if a deferred-wrap byte
is pending and not yet painted, query the console info and paint the
byte at the cursor cell via `WriteConsoleOutput`, without cursor motion. -/
def flushMargin (env : Env) (h : Handler) (cs : List BackendCall) : Res Unit :=
  if h.wrapNext && !h.drewMarginByte then
    let info := env.info
    { ok := true, val := (), h := { h with drewMarginByte := true },
      calls := cs ++ [BackendCall.getInfo,
        BackendCall.writeConsoleOutput h.marginByte info.attributes
          { left := info.cursor.x, top := info.cursor.y,
            right := info.cursor.x, bottom := info.cursor.y }] }
  else { ok := true, val := (), h := h, calls := cs }

/-- `Flush` from the source: invalidate the cached console info, write the
pending buffer to the file (on a short write the unwritten suffix stays in
the buffer and the error propagates), then paint the margin byte if
needed. -/
def Flush (env : Env) (h0 : Handler) : Res Unit :=
  let h := { h0 with curInfo := none }
  if h.buffer.length > 0 then
    let w := writeFile env h.buffer
    if w.1 then flushMargin env { h with buffer := [] } [BackendCall.fileWrite h.buffer]
    else
      { ok := false, val := (), h := { h with buffer := h.buffer.drop w.2 },
        calls := [BackendCall.fileWrite (h.buffer.take w.2)] }
  else flushMargin env h []

/-- Modelled from the spec: `ensureInRange` (from the repository's
utility helpers, not included under src/) clamps a value into
`[minimum, maximum]`. -/
def ensureInRange (n minimum maximum : Int) : Int :=
  if n < minimum then minimum else if n > maximum then maximum else n

/-- Modelled from the spec: `AddInRange` (utility helper not included
under src/) adds the bias and clamps into `[minimum, maximum]`. -/
def AddInRange (n add minimum maximum : Int) : Int :=
  ensureInRange (n + add) minimum maximum

/-- `effectiveSr` from the source (scroll_helper variant, the one used by
the `wrapNext`/`drewMarginByte` handler): bias the stored region by the
window top, clamp into the window, and fall back to the full window when
the clamped `top >= bottom`. -/
def effectiveSr (h : Handler) (window : SMALL_RECT) : ScrollRegionRec :=
  let top := AddInRange window.top h.sr.top window.top window.bottom
  let bottom := AddInRange window.top h.sr.bottom window.top window.bottom
  if top ≥ bottom then { top := window.top, bottom := window.bottom }
  else { top := top, bottom := bottom }

/-- Definition following the claim's words (for comparison with the
source): clamp the biased region into the window and fall back to the
full window only when the clamped range is empty (`top > bottom`) or
equal to the window. -/
def claimedEffectiveSr (h : Handler) (window : SMALL_RECT) : ScrollRegionRec :=
  let top := AddInRange window.top h.sr.top window.top window.bottom
  let bottom := AddInRange window.top h.sr.bottom window.top window.bottom
  if top > bottom ∨ (top = window.top ∧ bottom = window.bottom) then
    { top := window.top, bottom := window.bottom }
  else { top := top, bottom := bottom }

/-! ## Scrolling primitives (scroll_helper) -/

/-- `scroll` from the source: normalise a degenerate region
(`top >= bottom`) to `{0, window.bottom - window.top + 1}`, bias into
backing-buffer coordinates by the window top, and call
`ScrollConsoleScreenBuffer` with the source rect shifted by `param`
rows, the unshifted region as clip rect, the region's top-left as the
destination origin, and a space (0x20) in the current attributes as
fill. -/
def scroll (env : Env) (param : Int) (sr0 : ScrollRegionRec) (h : Handler) : Res Unit :=
  let info := env.info
  let sr : ScrollRegionRec :=
    if sr0.top ≥ sr0.bottom then
      { top := 0, bottom := info.window.bottom - info.window.top + 1 }
    else sr0
  let rect := info.window
  let top := rect.top + sr.top
  let bottom := rect.top + sr.bottom
  let scrollRect : SMALL_RECT :=
    { left := rect.left, top := top + param, right := rect.right, bottom := bottom + param }
  let clipRegion : SMALL_RECT :=
    { left := rect.left, top := top, right := rect.right, bottom := bottom }
  let destOrigin : COORD := { x := rect.left, y := top }
  { ok := true, val := (), h := h,
    calls := [BackendCall.getInfo,
      BackendCall.scrollBuffer scrollRect clipRegion destOrigin 32 h.attributes] }

/-- `scrollUp` from the source: `scroll(param, h.sr)` over the raw stored
region. -/
def scrollUp (env : Env) (param : Int) (h : Handler) : Res Unit :=
  scroll env param h.sr h

/-- `scrollDown` from the source: `scroll(-param, h.sr)`. -/
def scrollDown (env : Env) (param : Int) (h : Handler) : Res Unit :=
  scroll env (-param) h.sr h

/-- Definition following the claim's words (for comparison with the
source): `scroll(delta, region)` calls `ScrollConsoleScreenBuffer` with
source rect = the region itself, clip rect = the region, destination
origin = the region's top shifted by `delta`, and fill = space with the
current attributes. -/
def claimedScrollCalls (env : Env) (delta : Int) (r : ScrollRegionRec) (h : Handler) :
    List BackendCall :=
  let w := env.info.window
  [BackendCall.scrollBuffer
    { left := w.left, top := r.top, right := w.right, bottom := r.bottom }
    { left := w.left, top := r.top, right := w.right, bottom := r.bottom }
    { x := w.left, y := r.top + delta } 32 h.attributes]

/-! ## Line-feed simulation and printing (win_event_handler) -/

/-- Core of `simulateLF` after the deferred-wrap check: refresh the
cached console info, compare the cursor row against the effective scroll
region and either defer to Windows (`false`) or scroll/seek manually
(`true`). -/
def simulateLFCore (env : Env) (includeCR : Bool) (h0 : Handler)
    (cs0 : List BackendCall) : Res Bool :=
  let q := getCurrentInfo env h0
  let pos := q.1
  let info := q.2.1
  let h := q.2.2.1
  let cs := cs0 ++ q.2.2.2
  let sr := effectiveSr h info.window
  if pos.y = sr.bottom then
    if sr.top = info.window.top ∧ sr.bottom = info.window.bottom then
      if includeCR then
        { ok := true, val := false, h := updatePos h { pos with x := 0 }, calls := cs }
      else { ok := true, val := false, h := h, calls := cs }
    else
      let f := Flush env h
      if f.ok then
        let s := scrollUp env 1 f.h
        if includeCR then
          { ok := true, val := true, h := s.h,
            calls := cs ++ f.calls ++ s.calls ++ [BackendCall.setCursorPos { x := 0, y := pos.y }] }
        else { ok := true, val := true, h := s.h, calls := cs ++ f.calls ++ s.calls }
      else { ok := false, val := false, h := f.h, calls := cs ++ f.calls }
  else if pos.y < info.window.bottom then
    let pos1 : COORD := if includeCR then { x := 0, y := pos.y + 1 } else { pos with y := pos.y + 1 }
    { ok := true, val := false, h := updatePos h pos1, calls := cs }
  else
    if includeCR then
      let f := Flush env h
      if f.ok then
        { ok := true, val := true, h := f.h,
          calls := cs ++ f.calls ++ [BackendCall.setCursorPos { x := 0, y := pos.y }] }
      else { ok := false, val := false, h := f.h, calls := cs ++ f.calls }
    else { ok := true, val := true, h := h, calls := cs }

/-- `simulateLF` from the source: flush and clear a pending deferred
wrap, then run the core logic. -/
def simulateLF (env : Env) (includeCR : Bool) (h0 : Handler) : Res Bool :=
  if h0.wrapNext then
    let f := Flush env h0
    if f.ok then simulateLFCore env includeCR (clearWrap f.h) f.calls
    else { ok := false, val := false, h := f.h, calls := f.calls }
  else simulateLFCore env includeCR h0 []

/-- Per-byte half of `Print` from the source: with any pending wrap
already handled, cache the console info and either enter the deferred
margin state (cursor in the last column) or advance the cached cursor
and append the byte to the buffer. -/
def PrintCore (env : Env) (b : Nat) (h0 : Handler) (cs0 : List BackendCall) : Res Unit :=
  let q := getCurrentInfo env h0
  let pos := q.1
  let info := q.2.1
  let h := q.2.2.1
  let cs := cs0 ++ q.2.2.2
  if pos.x = info.sizeX - 1 then
    { ok := true, val := (), h := { h with wrapNext := true, marginByte := b }, calls := cs }
  else
    { ok := true, val := (),
      h := { updatePos h { pos with x := pos.x + 1 } with buffer := h.buffer ++ [b] },
      calls := cs }

/-- `Print` from the source: if a deferred wrap is pending, append the
remembered margin byte to the buffer, clear the wrap state and simulate
a CR+LF; then process the new byte. -/
def Print (env : Env) (b : Nat) (h0 : Handler) : Res Unit :=
  if h0.wrapNext then
    let h1 := clearWrap { h0 with buffer := h0.buffer ++ [h0.marginByte] }
    let s := simulateLF env true h1
    if s.ok then PrintCore env b s.h s.calls
    else { ok := false, val := (), h := s.h, calls := s.calls }
  else PrintCore env b h0 []

/-- Modelled from the spec: the constant `ANSI_SGR_RESET` (SGR code 0,
from the constants file not included under src/). -/
def ANSI_SGR_RESET : Int := 0

/-- Modelled from the spec: `invertAttributes` (attribute bit-math helper
not included under src/) swaps the foreground and background nibbles of
the attribute word. -/
def invertAttributes (a : Nat) : Nat :=
  (a % 16) * 16 + (a / 16 % 16) + (a / 256) * 256

/-- One step of the SGR parameter fold from the source: code 0 restores
the construction-time attributes (and touches nothing else); any other
code goes through the attribute translator `collect`. -/
def sgrStep (collect : Nat → Bool → Nat → Int → Nat × Bool) (resetAttrs : Nat)
    (acc : Nat × Bool) (attr : Int) : Nat × Bool :=
  if attr = ANSI_SGR_RESET then (resetAttrs, acc.2)
  else collect acc.1 acc.2 resetAttrs attr

/-- `SGR` from the source, parametric in the out-of-scope attribute
translator `collectAnsiIntoWindowsAttributes`: flush, then either reset
attributes and inversion (empty parameter list) or fold the parameters,
and finally push the (possibly inverted) attribute word to the console. -/
def SGR (collect : Nat → Bool → Nat → Int → Nat × Bool) (env : Env)
    (params : List Int) (h0 : Handler) : Res Unit :=
  let f := Flush env h0
  if f.ok then
    let h := f.h
    let r :=
      if params.length ≤ 0 then (h.infoResetAttributes, false)
      else params.foldl (sgrStep collect h.infoResetAttributes) (h.attributes, h.inverted)
    let h := { h with attributes := r.1, inverted := r.2 }
    let eff := if h.inverted then invertAttributes h.attributes else h.attributes
    { ok := true, val := (), h := h, calls := f.calls ++ [BackendCall.setTextAttribute eff] }
  else f

/-- `IND` from the source: simulate a bare LF; when not handled, append a
`\n` to the buffer and, if the cached column is non-zero, flush and
restore the cursor position (Windows' `\n` resets the column). -/
def IND (env : Env) (h0 : Handler) : Res Unit :=
  let s := simulateLF env false h0
  if !s.ok then { ok := false, val := (), h := s.h, calls := s.calls }
  else if s.val then { ok := true, val := (), h := s.h, calls := s.calls }
  else
    let q := getCurrentInfo env s.h
    let pos := q.1
    let h := { q.2.2.1 with buffer := q.2.2.1.buffer ++ [10] }
    let cs := s.calls ++ q.2.2.2
    if pos.x ≠ 0 then
      let f := Flush env h
      if f.ok then
        { ok := true, val := (), h := f.h,
          calls := cs ++ f.calls ++ [BackendCall.setCursorPos pos] }
      else { ok := false, val := (), h := f.h, calls := cs ++ f.calls }
    else { ok := true, val := (), h := h, calls := cs }

/-- `Execute` from the source: dispatch on the C0 byte. TAB repositions
to the next tab stop (unless a wrap is pending); BEL is appended to the
output buffer; BS decrements the cached column (floor 0); VT/FF behave
as IND; LF runs the simulation and falls back to a buffered `\n`; CR
zeroes the cached column; everything else is ignored. -/
def Execute (env : Env) (b : Nat) (h0 : Handler) : Res Unit :=
  if b = 9 then
    if h0.wrapNext then { ok := true, val := (), h := h0, calls := [] }
    else
      let q := getCurrentInfo env h0
      let pos := q.1
      let info := q.2.1
      let h := q.2.2.1
      let cs := q.2.2.2
      let x1 := (pos.x + 8) - Int.tmod pos.x 8
      let x2 := if x1 ≥ info.sizeX then info.sizeX - 1 else x1
      let f := Flush env h
      if f.ok then
        { ok := true, val := (), h := f.h,
          calls := cs ++ f.calls ++ [BackendCall.setCursorPos { x := x2, y := pos.y }] }
      else { ok := false, val := (), h := f.h, calls := cs ++ f.calls }
  else if b = 7 then
    { ok := true, val := (), h := { h0 with buffer := h0.buffer ++ [7] }, calls := [] }
  else if b = 8 then
    let step1 : Res Unit :=
      if h0.wrapNext then
        let f := Flush env h0
        if f.ok then { ok := true, val := (), h := clearWrap f.h, calls := f.calls }
        else f
      else { ok := true, val := (), h := h0, calls := [] }
    if step1.ok then
      let q := getCurrentInfo env step1.h
      let pos := q.1
      let h := q.2.2.1
      let cs := step1.calls ++ q.2.2.2
      if pos.x > 0 then
        { ok := true, val := (),
          h := { updatePos h { pos with x := pos.x - 1 } with buffer := h.buffer ++ [8] },
          calls := cs }
      else { ok := true, val := (), h := h, calls := cs }
    else step1
  else if b = 11 ∨ b = 12 then IND env h0
  else if b = 10 then
    let s := simulateLF env true h0
    if !s.ok then { ok := false, val := (), h := s.h, calls := s.calls }
    else if s.val then { ok := true, val := (), h := s.h, calls := s.calls }
    else { ok := true, val := (), h := { s.h with buffer := s.h.buffer ++ [10] }, calls := s.calls }
  else if b = 13 then
    let step1 : Res Unit :=
      if h0.wrapNext then
        let f := Flush env h0
        if f.ok then { ok := true, val := (), h := clearWrap f.h, calls := f.calls }
        else f
      else { ok := true, val := (), h := h0, calls := [] }
    if step1.ok then
      let q := getCurrentInfo env step1.h
      let pos := q.1
      let h := q.2.2.1
      let cs := step1.calls ++ q.2.2.2
      if pos.x ≠ 0 then
        { ok := true, val := (),
          h := { updatePos h { pos with x := 0 } with buffer := h.buffer ++ [13] },
          calls := cs }
      else { ok := true, val := (), h := h, calls := cs }
    else step1
  else { ok := true, val := (), h := h0, calls := [] }

/-! ## Cursor-motion commands -/

/-- Modelled from the spec: `moveCursor` (cursor helper not included
under src/) reads the console position, offsets it, clamps the column
into `[0, size.x - 1]` and the row into the window, and issues
`SetConsoleCursorPosition`. -/
def moveCursor (env : Env) (dx dy : Int) (h : Handler) : Res Unit :=
  let info := env.info
  let x := ensureInRange (info.cursor.x + dx) 0 (info.sizeX - 1)
  let y := ensureInRange (info.cursor.y + dy) info.window.top info.window.bottom
  { ok := true, val := (), h := h,
    calls := [BackendCall.getInfo, BackendCall.setCursorPos { x := x, y := y }] }

/-- Modelled from the spec: `moveCursorVertical` offsets the row. -/
def moveCursorVertical (env : Env) (d : Int) (h : Handler) : Res Unit :=
  moveCursor env 0 d h

/-- Modelled from the spec: `moveCursorHorizontal` offsets the column. -/
def moveCursorHorizontal (env : Env) (d : Int) (h : Handler) : Res Unit :=
  moveCursor env d 0 h

/-- Modelled from the spec: `moveCursorLine` (CNL/CPL helper) moves to
column 0 of the row offset by `d`, clamped into the window. -/
def moveCursorLine (env : Env) (d : Int) (h : Handler) : Res Unit :=
  let info := env.info
  let y := ensureInRange (info.cursor.y + d) info.window.top info.window.bottom
  { ok := true, val := (), h := h,
    calls := [BackendCall.getInfo, BackendCall.setCursorPos { x := 0, y := y }] }

/-- Modelled from the spec: `moveCursorColumn` (CHA helper) moves to the
1-based column `n`, clamped into `[0, size.x - 1]`, keeping the row. -/
def moveCursorColumn (env : Env) (n : Int) (h : Handler) : Res Unit :=
  let info := env.info
  let x := ensureInRange (n - 1) 0 (info.sizeX - 1)
  { ok := true, val := (), h := h,
    calls := [BackendCall.getInfo, BackendCall.setCursorPos { x := x, y := info.cursor.y }] }

/-- Glue shared by the simple motion commands: flush, clear the wrap
state, run the helper. -/
def motionGlue (env : Env) (h0 : Handler)
    (helper : Handler → Res Unit) : Res Unit :=
  let f := Flush env h0
  if f.ok then
    let m := helper (clearWrap f.h)
    { ok := m.ok, val := (), h := m.h, calls := f.calls ++ m.calls }
  else f

/-- `CUU` from the source. -/
def CUU (env : Env) (n : Int) (h0 : Handler) : Res Unit :=
  motionGlue env h0 (moveCursorVertical env (-n))

/-- `CUD` from the source. -/
def CUD (env : Env) (n : Int) (h0 : Handler) : Res Unit :=
  motionGlue env h0 (moveCursorVertical env n)

/-- `CUF` from the source. -/
def CUF (env : Env) (n : Int) (h0 : Handler) : Res Unit :=
  motionGlue env h0 (moveCursorHorizontal env n)

/-- `CUB` from the source. -/
def CUB (env : Env) (n : Int) (h0 : Handler) : Res Unit :=
  motionGlue env h0 (moveCursorHorizontal env (-n))

/-- `CNL` from the source. -/
def CNL (env : Env) (n : Int) (h0 : Handler) : Res Unit :=
  motionGlue env h0 (moveCursorLine env n)

/-- `CPL` from the source. -/
def CPL (env : Env) (n : Int) (h0 : Handler) : Res Unit :=
  motionGlue env h0 (moveCursorLine env (-n))

/-- `CHA` from the source. -/
def CHA (env : Env) (n : Int) (h0 : Handler) : Res Unit :=
  motionGlue env h0 (moveCursorColumn env n)

/-- `VPA` from the source: flush, clear wrap, query a fresh console info,
clamp the 1-based row into the window and reposition, keeping the column. -/
def VPA (env : Env) (n : Int) (h0 : Handler) : Res Unit :=
  let f := Flush env h0
  if f.ok then
    let h := clearWrap f.h
    let info := env.info
    let y := ensureInRange (n - 1) info.window.top info.window.bottom
    { ok := true, val := (), h := h,
      calls := f.calls ++ [BackendCall.getInfo,
        BackendCall.setCursorPos { x := info.cursor.x, y := y }] }
  else f

/-- `CUP` from the source: flush, clear wrap, query a fresh console info,
bias the 1-based row by the window top and clamp, clamp the 1-based
column into `[0, size.x - 1]`, and reposition. -/
def CUP (env : Env) (row col : Int) (h0 : Handler) : Res Unit :=
  let f := Flush env h0
  if f.ok then
    let h := clearWrap f.h
    let info := env.info
    let rect := info.window
    let rowS := AddInRange (row - 1) rect.top rect.top rect.bottom
    let colS := ensureInRange (col - 1) 0 (info.sizeX - 1)
    { ok := true, val := (), h := h,
      calls := f.calls ++ [BackendCall.getInfo,
        BackendCall.setCursorPos { x := colS, y := rowS }] }
  else f

/-- `HVP` from the source: flush, clear wrap, then delegate to `CUP`. -/
def HVP (env : Env) (row col : Int) (h0 : Handler) : Res Unit :=
  let f := Flush env h0
  if f.ok then
    let c := CUP env row col (clearWrap f.h)
    { ok := c.ok, val := (), h := c.h, calls := f.calls ++ c.calls }
  else f

/-- `DECSTBM` from the source: flush, store the 0-indexed region, clear
wrap, and move the cursor to the origin. -/
def DECSTBM (env : Env) (top bottom : Int) (h0 : Handler) : Res Unit :=
  let f := Flush env h0
  if f.ok then
    let h := clearWrap { f.h with sr := { top := top - 1, bottom := bottom - 1 } }
    { ok := true, val := (), h := h,
      calls := f.calls ++ [BackendCall.setCursorPos { x := 0, y := 0 }] }
  else f

/-- The ten cursor-motion commands of the event-handler interface. -/
inductive MotionCmd where
  | cuu (n : Int)
  | cud (n : Int)
  | cuf (n : Int)
  | cub (n : Int)
  | cnl (n : Int)
  | cpl (n : Int)
  | cha (n : Int)
  | vpa (n : Int)
  | cup (row col : Int)
  | hvp (row col : Int)
deriving Repr, DecidableEq

/-- Dispatcher over the ten cursor-motion commands. -/
def runMotion (env : Env) (c : MotionCmd) (h : Handler) : Res Unit :=
  match c with
  | MotionCmd.cuu n => CUU env n h
  | MotionCmd.cud n => CUD env n h
  | MotionCmd.cuf n => CUF env n h
  | MotionCmd.cub n => CUB env n h
  | MotionCmd.cnl n => CNL env n h
  | MotionCmd.cpl n => CPL env n h
  | MotionCmd.cha n => CHA env n h
  | MotionCmd.vpa n => VPA env n h
  | MotionCmd.cup r c => CUP env r c h
  | MotionCmd.hvp r c => HVP env r c h

/-! ## Concrete fixtures for witnesses and counterexamples -/

/-- An 80×25 console window rectangle. -/
def window80x25 : SMALL_RECT := { left := 0, top := 0, right := 79, bottom := 24 }

/-- Console info for an 80×25 window with a given cursor position. -/
def mkInfo (c : COORD) : CONSOLE_INFO :=
  { sizeX := 80, sizeY := 25, cursor := c, attributes := 7, window := window80x25 }

/-- Error-free backend environment with the cursor at `c`. -/
def envAt (c : COORD) : Env := { info := mkInfo c, writeLimit := none }

/-- A freshly constructed handler state (attributes captured at
construction, empty buffer, no wrap pending, default scroll region). -/
def baseH : Handler :=
  { infoResetAttributes := 7, sr := { top := 0, bottom := 0 }, buffer := [],
    wrapNext := false, drewMarginByte := false, inverted := false,
    attributes := 7, marginByte := 0, curInfo := none, curPos := { x := 0, y := 0 } }

/-- An arbitrary concrete attribute translator, used where a theorem must
be evaluated at a closed input; the translated claims never reach it. -/
def collect0 (a : Nat) (i : Bool) (_d : Nat) (_p : Int) : Nat × Bool := (a + 1, !i)

/-- Handler with one pending byte, used by the margin-discipline witness. -/
def hPrintFix : Handler := { baseH with buffer := [72] }

end GoAnsiterm

namespace GoAnsiterm

/-! ## Theorems about parameter parsing -/

/-- The source's `parseParams` equals the plain split with the empty
fragments removed. -/
theorem parseParamsAux_eq_filter (l : List Nat) :
    ∀ buff, parseParamsAux buff l = (splitKeepEmptyAux buff l).filter (fun t => !t.isEmpty) := by
  induction l with
  | nil =>
    intro buff
    simp only [parseParamsAux, splitKeepEmptyAux, List.filter]
    cases h : buff.isEmpty <;> simp [h]
  | cons v rest ih =>
    intro buff
    simp only [parseParamsAux, splitKeepEmptyAux]
    by_cases hv : v = 59
    · simp only [hv, if_pos rfl]
      cases h : buff.isEmpty
      · simp [List.filter, h, ih]
      · simp [List.filter, h, ih]
    · simp [hv, ih]

/-- C2 (counterexample): on the buffer `";5"` (as in `CSI ;5H` with
minimum count 2 and default 1, the CUP case), the code produces `[5, 1]`
while the claimed positional decoding produces `[1, 5]`. -/
theorem claim2_counterexample :
    getInts (parseParams [59, 53]) 2 1 = [5, 1] ∧
    claimedParamInts [59, 53] 2 1 = [1, 5] ∧
    getInts (parseParams [59, 53]) 2 1 ≠ claimedParamInts [59, 53] 2 1 := by
  refine ⟨by decide, by decide, by decide⟩

/-- C2 (amended): dispatch obtains the integer parameters by splitting the
buffer on `';'` and dropping empty tokens entirely, decoding each remaining
token base-10 (invalid tokens decode to 0), and then padding the list at
the end with the command's default value up to the per-command minimum
count — so an empty token shifts the following parameters into earlier
positions instead of supplying the default in place. -/
theorem getInts_parseParams_spec (bytes : List Nat) (minCount : Nat) (dflt : Int) :
    getInts (parseParams bytes) minCount dflt =
      (let ints := ((splitKeepEmpty bytes).filter (fun t => !t.isEmpty)).map atoi
       ints ++ List.replicate (minCount - ints.length) dflt) := by
  simp only [getInts, parseParams, splitKeepEmpty, parseParamsAux_eq_filter]
  split
  · rfl
  · rename_i hlen
    rw [List.length_map] at hlen
    have : minCount - ((splitKeepEmptyAux [] bytes).filter
        (fun t => !t.isEmpty)).length = 0 := by omega
    simp [this]

/-- C10: the decoded erase mode handed to ED/EL is always in `[0, 3]`:
the first parameter is decoded with default 0 and any value below 0 or
above 3 is replaced by 0. -/
theorem getEraseParam_in_range (params : List (List Nat)) :
    (0 ≤ getEraseParam params ∧ getEraseParam params ≤ 3) ∧
    getEraseParam params =
      (if getInt params 0 < 0 ∨ 3 < getInt params 0 then 0 else getInt params 0) := by
  constructor
  · simp only [getEraseParam]
    split
    · exact ⟨le_refl 0, by norm_num⟩
    · rename_i hcond
      push_neg at hcond
      exact ⟨hcond.1, hcond.2⟩
  · rfl

/-! ## Theorems about the adapter -/

/-- Helper: `Flush` always leaves the cached console info invalidated. -/
theorem Flush_curInfo_none (env : Env) (h : Handler) :
    (Flush env h).h.curInfo = none := by
  simp only [Flush, flushMargin]
  split_ifs <;> rfl

/-- Helper: `Flush` never changes the `wrapNext` flag. -/
theorem Flush_wrapNext (env : Env) (h : Handler) :
    (Flush env h).h.wrapNext = h.wrapNext := by
  simp only [Flush, flushMargin]
  split_ifs <;> rfl

/-- C9: when the underlying file write fails after accepting `k` of the
pending bytes, `Flush` reports the error, retains exactly the unwritten
suffix of the buffer (so a retry can resume), and the cached console
info is invalidated — as it is on every `Flush`, success or failure. -/
theorem Flush_failure_retains_buffer (env : Env) (h : Handler) (k : Nat)
    (hl : env.writeLimit = some k) (hk : k < h.buffer.length) :
    (Flush env h).ok = false ∧
    (Flush env h).h.buffer = h.buffer.drop k ∧
    (Flush env h).h.buffer ≠ [] ∧
    (∀ env2 h2, (Flush env2 h2).h.curInfo = none) := by
  have hpos : h.buffer.length > 0 := by omega
  have hle : ¬ h.buffer.length ≤ k := by omega
  have hw : writeFile env h.buffer = (false, k) := by
    simp [writeFile, hl, hle]
  have hres : Flush env h =
      { ok := false, val := (),
        h := { h with curInfo := none, buffer := h.buffer.drop k },
        calls := [BackendCall.fileWrite (h.buffer.take k)] } := by
    simp [Flush, hpos, hw]
  refine ⟨?_, ?_, ?_, Flush_curInfo_none⟩
  · rw [hres]
  · rw [hres]
  · rw [hres]
    intro habs
    have hlen := congrArg List.length habs
    simp at hlen
    omega

/-- C9 (witness): a three-byte buffer flushed into a file that accepts
one byte fails and keeps the last two bytes pending. -/
theorem Flush_failure_retains_buffer_witness :
    (1 : Nat) < ({ baseH with buffer := [65, 66, 67] } : Handler).buffer.length ∧
    (Flush { info := mkInfo { x := 0, y := 0 }, writeLimit := some 1 }
        { baseH with buffer := [65, 66, 67] }).ok = false ∧
    (Flush { info := mkInfo { x := 0, y := 0 }, writeLimit := some 1 }
        { baseH with buffer := [65, 66, 67] }).h.buffer = [66, 67] :=
  ⟨by decide,
   (Flush_failure_retains_buffer _ _ 1 rfl (by decide)).1,
   by
    have := (Flush_failure_retains_buffer
      { info := mkInfo { x := 0, y := 0 }, writeLimit := some 1 }
      { baseH with buffer := [65, 66, 67] } 1 rfl (by decide)).2.1
    simpa using this⟩

/-- C1 (code bug): `SGR([0])` on a handler with reverse video active
restores the attribute word to the construction-time value but leaves
`inverted` set — only the empty-parameter path clears it, although an
empty SGR and `SGR 0` mean the same command. -/
theorem sgr_zero_keeps_inverted :
    (SGR collect0 (envAt { x := 0, y := 0 }) [0]
        { baseH with inverted := true, attributes := 99 }).h.attributes = 7 ∧
    (SGR collect0 (envAt { x := 0, y := 0 }) [0]
        { baseH with inverted := true, attributes := 99 }).h.inverted = true ∧
    (SGR collect0 (envAt { x := 0, y := 0 }) []
        { baseH with inverted := true, attributes := 99 }).h.inverted = false := by
  refine ⟨by decide, by decide, by decide⟩

/-- C8 (counterexample): executing BEL with a byte already pending in the
output buffer performs no backend call at all — in particular no flush
and no direct file write — and leaves BEL appended to the buffer. -/
theorem execute_bel_buffers :
    (Execute (envAt { x := 3, y := 2 }) 7 { baseH with buffer := [65] }).calls = [] ∧
    (Execute (envAt { x := 3, y := 2 }) 7 { baseH with buffer := [65] }).h.buffer = [65, 7] := by
  refine ⟨by decide, by decide⟩

/-- C8 (amended): `Execute` on BEL simply appends the byte to the pending
output buffer, performing no flush and no direct write; the wrap state is
untouched and BEL stays pending until the next flush. -/
theorem execute_bel_appends (env : Env) (h : Handler) :
    Execute env 7 h =
      { ok := true, val := (), h := { h with buffer := h.buffer ++ [7] }, calls := [] } := by
  rfl

/-- C6 (counterexample): for the single-line stored region `{5,5}` in an
80×25 window the clamped range `[5,5]` is neither empty nor the full
window, yet the code returns the full window. -/
theorem effectiveSr_single_line_counterexample :
    effectiveSr { baseH with sr := { top := 5, bottom := 5 } } window80x25 =
      { top := 0, bottom := 24 } ∧
    claimedEffectiveSr { baseH with sr := { top := 5, bottom := 5 } } window80x25 =
      { top := 5, bottom := 5 } ∧
    effectiveSr { baseH with sr := { top := 5, bottom := 5 } } window80x25 ≠
      claimedEffectiveSr { baseH with sr := { top := 5, bottom := 5 } } window80x25 := by
  refine ⟨by decide, by decide, by decide⟩

/-- C6 (amended): `effective_sr(window)` equals the stored region biased
by the window top and clamped into the window, except that whenever the
clamped `top` is not strictly below the clamped `bottom` (an empty *or
single-line* range) the result is the full window; for any window with
`top ≤ bottom` the returned region is contained in the window and has
`top ≤ bottom`. -/
theorem effectiveSr_amended (h : Handler) (w : SMALL_RECT) (hw : w.top ≤ w.bottom) :
    effectiveSr h w =
      (if AddInRange w.top h.sr.top w.top w.bottom ≥ AddInRange w.top h.sr.bottom w.top w.bottom
       then { top := w.top, bottom := w.bottom }
       else { top := AddInRange w.top h.sr.top w.top w.bottom,
              bottom := AddInRange w.top h.sr.bottom w.top w.bottom }) ∧
    (w.top ≤ (effectiveSr h w).top ∧
     (effectiveSr h w).top ≤ (effectiveSr h w).bottom ∧
     (effectiveSr h w).bottom ≤ w.bottom) := by
  refine ⟨rfl, ?_⟩
  simp only [effectiveSr, AddInRange, ensureInRange]
  split_ifs <;> simp_all
  all_goals omega

/-- C6 (witness): the amended containment at the counterexample region. -/
theorem effectiveSr_amended_witness :
    window80x25.top ≤ window80x25.bottom ∧
    (window80x25.top ≤
        (effectiveSr { baseH with sr := { top := 5, bottom := 5 } } window80x25).top ∧
     (effectiveSr { baseH with sr := { top := 5, bottom := 5 } } window80x25).top ≤
        (effectiveSr { baseH with sr := { top := 5, bottom := 5 } } window80x25).bottom ∧
     (effectiveSr { baseH with sr := { top := 5, bottom := 5 } } window80x25).bottom ≤
        window80x25.bottom) :=
  ⟨by decide,
   (effectiveSr_amended { baseH with sr := { top := 5, bottom := 5 } } window80x25 (by decide)).2⟩

/-- C5 (counterexample): for the stored region `{4,9}` in an 80×25 window,
`scrollUp(1)` shifts the *source* rectangle down by one and copies it back
to the region top, while the claimed call shape keeps the source at the
region and shifts the *destination* by `-1`; the emitted
`ScrollConsoleScreenBuffer` arguments differ. -/
theorem scrollUp_call_shape_counterexample :
    (scrollUp (envAt { x := 0, y := 9 }) 1 { baseH with sr := { top := 4, bottom := 9 } }).calls =
      [BackendCall.getInfo,
       BackendCall.scrollBuffer
         { left := 0, top := 5, right := 79, bottom := 10 }
         { left := 0, top := 4, right := 79, bottom := 9 }
         { x := 0, y := 4 } 32 7] ∧
    claimedScrollCalls (envAt { x := 0, y := 9 }) (-1)
        (effectiveSr { baseH with sr := { top := 4, bottom := 9 } } window80x25)
        { baseH with sr := { top := 4, bottom := 9 } } =
      [BackendCall.scrollBuffer
         { left := 0, top := 4, right := 79, bottom := 9 }
         { left := 0, top := 4, right := 79, bottom := 9 }
         { x := 0, y := 3 } 32 7] ∧
    (scrollUp (envAt { x := 0, y := 9 }) 1 { baseH with sr := { top := 4, bottom := 9 } }).calls ≠
      claimedScrollCalls (envAt { x := 0, y := 9 }) (-1)
        (effectiveSr { baseH with sr := { top := 4, bottom := 9 } } window80x25)
        { baseH with sr := { top := 4, bottom := 9 } } := by
  refine ⟨by decide, by decide, by decide⟩

/-- C5 (amended): `scroll_up(n)` is `scroll(+n, sr)` and `scroll_down(n)`
is `scroll(-n, sr)` over the *raw stored* region, and for a proper region
(`top < bottom`) the emitted `ScrollConsoleScreenBuffer` call has clip
rect = the window-biased region, source rect = the clip shifted by `n`
rows, destination origin = the clip's top-left corner, and fill = a space
in the current attributes. -/
theorem scroll_amended (env : Env) (n : Int) (h : Handler) (hsr : h.sr.top < h.sr.bottom) :
    scrollUp env n h = scroll env n h.sr h ∧
    scrollDown env n h = scroll env (-n) h.sr h ∧
    (scroll env n h.sr h).calls =
      [BackendCall.getInfo,
       BackendCall.scrollBuffer
         { left := env.info.window.left, top := env.info.window.top + h.sr.top + n,
           right := env.info.window.right, bottom := env.info.window.top + h.sr.bottom + n }
         { left := env.info.window.left, top := env.info.window.top + h.sr.top,
           right := env.info.window.right, bottom := env.info.window.top + h.sr.bottom }
         { x := env.info.window.left, y := env.info.window.top + h.sr.top }
         32 h.attributes] := by
  refine ⟨rfl, rfl, ?_⟩
  have hns : ¬ h.sr.top ≥ h.sr.bottom := by omega
  simp [scroll, hns]

/-- C5 (witness): the amended call shape at the counterexample input. -/
theorem scroll_amended_witness :
    ({ baseH with sr := { top := 4, bottom := 9 } } : Handler).sr.top <
      ({ baseH with sr := { top := 4, bottom := 9 } } : Handler).sr.bottom ∧
    (scroll (envAt { x := 0, y := 9 }) 1
        ({ baseH with sr := { top := 4, bottom := 9 } } : Handler).sr
        { baseH with sr := { top := 4, bottom := 9 } }).calls =
      [BackendCall.getInfo,
       BackendCall.scrollBuffer
         { left := 0, top := 5, right := 79, bottom := 10 }
         { left := 0, top := 4, right := 79, bottom := 9 }
         { x := 0, y := 4 } 32 7] :=
  ⟨by decide,
   by
    have := (scroll_amended (envAt { x := 0, y := 9 }) 1
      { baseH with sr := { top := 4, bottom := 9 } } (by decide)).2.2
    simpa [envAt, mkInfo, window80x25, baseH] using this⟩

/-- C7: after any of the ten cursor-motion commands completes
successfully, the deferred-wrap flag is false and the drew-margin-byte
flag is cleared with it. -/
theorem motion_clears_wrap (env : Env) (c : MotionCmd) (h : Handler)
    (hok : (runMotion env c h).ok = true) :
    (runMotion env c h).h.wrapNext = false ∧
    (runMotion env c h).h.drewMarginByte = false := by
  cases c <;>
    simp only [runMotion, CUU, CUD, CUF, CUB, CNL, CPL, CHA, VPA, CUP, HVP, motionGlue,
      moveCursorVertical, moveCursorHorizontal, moveCursorLine, moveCursorColumn,
      moveCursor] at hok ⊢ <;>
    (repeat' split at hok) <;>
    simp_all [clearWrap]

/-- C7 (witness): CUU on a handler with a pending wrap succeeds and
leaves both wrap flags cleared. -/
theorem motion_clears_wrap_witness :
    (runMotion (envAt { x := 3, y := 2 }) (MotionCmd.cuu 1)
        { baseH with wrapNext := true, drewMarginByte := true }).ok = true ∧
    ((runMotion (envAt { x := 3, y := 2 }) (MotionCmd.cuu 1)
        { baseH with wrapNext := true, drewMarginByte := true }).h.wrapNext = false ∧
     (runMotion (envAt { x := 3, y := 2 }) (MotionCmd.cuu 1)
        { baseH with wrapNext := true, drewMarginByte := true }).h.drewMarginByte = false) :=
  ⟨by decide, motion_clears_wrap _ _ _ (by decide)⟩

/-- Helper: under an error-free file and no pending wrap, `Flush` empties
the buffer (emitting one file write when it was non-empty), invalidates
the cache, and succeeds. -/
theorem Flush_ok_simple (env : Env) (h : Handler) (hwl : env.writeLimit = none)
    (hw : h.wrapNext = false) :
    Flush env h =
      { ok := true, val := (), h := { h with curInfo := none, buffer := [] },
        calls := if h.buffer.isEmpty then [] else [BackendCall.fileWrite h.buffer] } := by
  cases hb : h.buffer with
  | nil => simp [Flush, flushMargin, hb, hw]
  | cons x xs => simp [Flush, flushMargin, hb, hw, writeFile, hwl]

/-- C3: the deferred-wrap margin discipline of `Print`. With no wrap
pending and the cursor in the last column, printing `b` only records the
margin state (`wrap_next := true`, `margin_byte := b`) without advancing
the cached cursor or touching the output buffer; with a wrap already
pending, printing first appends the remembered margin byte to the
buffer, clears the wrap state, simulates a CR+LF, and then processes the
new byte. -/
theorem print_margin_discipline (env : Env) (h : Handler) (b : Nat)
    (hc : h.curInfo = none) :
    (h.wrapNext = false → env.info.cursor.x = env.info.sizeX - 1 →
      Print env b h =
        { ok := true, val := (),
          h := { h with curInfo := some env.info, curPos := env.info.cursor,
                        wrapNext := true, marginByte := b },
          calls := [BackendCall.getInfo] }) ∧
    (h.wrapNext = true →
      Print env b h =
        (let h1 : Handler :=
           { h with buffer := h.buffer ++ [h.marginByte],
                    wrapNext := false, drewMarginByte := false }
         let s := simulateLF env true h1
         if s.ok then PrintCore env b s.h s.calls
         else { ok := false, val := (), h := s.h, calls := s.calls })) := by
  constructor
  · intro hw hx
    simp [Print, hw, PrintCore, getCurrentInfo, hc, hx]
  · intro hw
    simp [Print, hw, clearWrap]

/-- C3 (witness): printing at column 79 of an 80-column window defers the
byte into the margin state. -/
theorem print_margin_discipline_witness :
    (hPrintFix.curInfo = none ∧
     hPrintFix.wrapNext = false ∧
     (envAt { x := 79, y := 5 }).info.cursor.x = (envAt { x := 79, y := 5 }).info.sizeX - 1) ∧
    Print (envAt { x := 79, y := 5 }) 88 hPrintFix =
      { ok := true, val := (),
        h := { hPrintFix with
               curInfo := some (envAt { x := 79, y := 5 }).info,
               curPos := (envAt { x := 79, y := 5 }).info.cursor,
               wrapNext := true, marginByte := 88 },
        calls := [BackendCall.getInfo] } :=
  ⟨⟨rfl, rfl, by decide⟩,
   (print_margin_discipline (envAt { x := 79, y := 5 }) hPrintFix 88 rfl).1 rfl (by decide)⟩

/-- C4 (counterexample): with the stored region `{4,100}` in an 80×25
window the effective region clamps to `{4,24}` — not the full window —
and the cursor row 24 is its bottom, yet the emitted scroll call's clip
rectangle extends to row 100, beyond the effective region the claim says
is scrolled. -/
theorem simulateLF_scrolls_raw_region :
    effectiveSr { baseH with sr := { top := 4, bottom := 100 } } window80x25 =
      { top := 4, bottom := 24 } ∧
    (simulateLF (envAt { x := 0, y := 24 }) true
        { baseH with sr := { top := 4, bottom := 100 } }).calls =
      [BackendCall.getInfo, BackendCall.getInfo,
       BackendCall.scrollBuffer
         { left := 0, top := 5, right := 79, bottom := 101 }
         { left := 0, top := 4, right := 79, bottom := 100 }
         { x := 0, y := 4 } 32 7,
       BackendCall.setCursorPos { x := 0, y := 24 }] ∧
    ({ left := 0, top := 4, right := 79, bottom := 100 } : SMALL_RECT) ≠
      { left := 0, top := 4, right := 79, bottom := 24 } := by
  refine ⟨by decide, by decide, by decide⟩

/-- C4 (amended): when `simulateLF` runs with no wrap pending, a valid
backend, and the cursor row at the bottom of an effective scroll region
that is not the full window, it returns `true` after flushing the
pending output, issuing the scroll-up-by-one call over the *stored*
region biased into the window (which coincides with the effective region
whenever the stored values are proper and in range), and (when a CR is
included) repositioning the console cursor to column 0 of the same
row. -/
theorem simulateLF_custom_region (env : Env) (h : Handler) (includeCR : Bool)
    (hwl : env.writeLimit = none)
    (hw : h.wrapNext = false)
    (hc : h.curInfo = none)
    (hsr : h.sr.top < h.sr.bottom)
    (hbot : env.info.cursor.y = (effectiveSr h env.info.window).bottom)
    (hfull : ¬((effectiveSr h env.info.window).top = env.info.window.top ∧
               (effectiveSr h env.info.window).bottom = env.info.window.bottom)) :
    (simulateLF env includeCR h).ok = true ∧
    (simulateLF env includeCR h).val = true ∧
    (simulateLF env includeCR h).calls =
      [BackendCall.getInfo] ++
      (if h.buffer.isEmpty then [] else [BackendCall.fileWrite h.buffer]) ++
      [BackendCall.getInfo,
       BackendCall.scrollBuffer
         { left := env.info.window.left, top := env.info.window.top + h.sr.top + 1,
           right := env.info.window.right, bottom := env.info.window.top + h.sr.bottom + 1 }
         { left := env.info.window.left, top := env.info.window.top + h.sr.top,
           right := env.info.window.right, bottom := env.info.window.top + h.sr.bottom }
         { x := env.info.window.left, y := env.info.window.top + h.sr.top }
         32 h.attributes] ++
      (if includeCR then [BackendCall.setCursorPos { x := 0, y := env.info.cursor.y }]
       else []) := by
  have hwb : ¬ h.wrapNext = true := by simp [hw]
  have hsrn : ¬ h.sr.top ≥ h.sr.bottom := by omega
  have hq : getCurrentInfo env h =
      (env.info.cursor, env.info,
       { h with curInfo := some env.info, curPos := env.info.cursor },
       [BackendCall.getInfo]) := by
    simp [getCurrentInfo, hc]
  have hES : effectiveSr { h with curInfo := some env.info, curPos := env.info.cursor }
      env.info.window = effectiveSr h env.info.window := rfl
  have hFl : Flush env { h with curInfo := some env.info, curPos := env.info.cursor } =
      { ok := true, val := (),
        h := { h with curInfo := none, curPos := env.info.cursor, buffer := [] },
        calls := if h.buffer.isEmpty then [] else [BackendCall.fileWrite h.buffer] } :=
    Flush_ok_simple env _ hwl hw
  have hmain : simulateLF env includeCR h =
      { ok := true, val := true,
        h := { h with curInfo := none, curPos := env.info.cursor, buffer := [] },
        calls :=
          [BackendCall.getInfo] ++
          (if h.buffer.isEmpty then [] else [BackendCall.fileWrite h.buffer]) ++
          [BackendCall.getInfo,
           BackendCall.scrollBuffer
             { left := env.info.window.left, top := env.info.window.top + h.sr.top + 1,
               right := env.info.window.right, bottom := env.info.window.top + h.sr.bottom + 1 }
             { left := env.info.window.left, top := env.info.window.top + h.sr.top,
               right := env.info.window.right, bottom := env.info.window.top + h.sr.bottom }
             { x := env.info.window.left, y := env.info.window.top + h.sr.top }
             32 h.attributes] ++
          (if includeCR then [BackendCall.setCursorPos { x := 0, y := env.info.cursor.y }]
           else []) } := by
    simp only [simulateLF, simulateLFCore, hq]
    rw [if_neg hwb, hES]
    rw [if_pos hbot, if_neg hfull, hFl]
    simp only [scrollUp, scroll]
    cases includeCR <;> cases hb : h.buffer.isEmpty <;>
      simp [hb, hsrn]
  exact ⟨by rw [hmain], by rw [hmain], by rw [hmain]⟩

/-- C4 (witness, scenario S6): in an 80×25 window, `DECSTBM 5,10` stores
the region `{4,9}`; with the cursor at `(0,9)`, `simulateLF(true)` scrolls
rows `[4,9]` up by one (clip rows 4–9, source rows 5–10, destination row
4) and repositions the cursor to column 0 of row 9, returning `true`. -/
theorem simulateLF_custom_region_witness :
    (DECSTBM (envAt { x := 0, y := 9 }) 5 10 baseH).h.sr =
      ({ top := 4, bottom := 9 } : ScrollRegionRec) ∧
    ((simulateLF (envAt { x := 0, y := 9 }) true
        { baseH with sr := { top := 4, bottom := 9 } }).ok = true ∧
     (simulateLF (envAt { x := 0, y := 9 }) true
        { baseH with sr := { top := 4, bottom := 9 } }).val = true ∧
     (simulateLF (envAt { x := 0, y := 9 }) true
        { baseH with sr := { top := 4, bottom := 9 } }).calls =
       [BackendCall.getInfo] ++
       (if ({ baseH with sr := { top := 4, bottom := 9 } } : Handler).buffer.isEmpty then []
        else [BackendCall.fileWrite
          ({ baseH with sr := { top := 4, bottom := 9 } } : Handler).buffer]) ++
       [BackendCall.getInfo,
        BackendCall.scrollBuffer
          { left := 0, top := 5, right := 79, bottom := 10 }
          { left := 0, top := 4, right := 79, bottom := 9 }
          { x := 0, y := 4 } 32 7] ++
       [BackendCall.setCursorPos { x := 0, y := 9 }]) :=
  ⟨by decide,
   by
    have := simulateLF_custom_region (envAt { x := 0, y := 9 })
      { baseH with sr := { top := 4, bottom := 9 } } true rfl rfl rfl (by decide)
      (by decide) (by decide)
    simpa [envAt, mkInfo, window80x25, baseH] using this⟩

end GoAnsiterm
